import Mathlib

/-!
Verification of the kdbus transport layer in gio/gkdbus.c.

This file gives a shallow embedding of the transport's data model and
operations — close, register, message decoding, receive orchestration and
send encoding — and proves properties of them.

Modelling conventions, following the error taxonomy the specification uses
for this code base:
* `g_error`-style abort-on-error reporting and unconditional `g_print` logs
  are modelled as explicit report values carried in the result records, so
  that theorems can talk about what the code reports and what it does not.
* The kernel is an oracle: the result of each successive `ioctl` attempt
  (`MSG_RECV`, `MSG_RELEASE`, `MSG_SEND`, `HELLO`) is an input, as are the
  bytes of the memory-mapped receive pool and the message found at a given
  pool offset.
* `struct` layout constants that come from the kernel header kdbus.h (which
  is not part of this repository's sources) are fixed named constants; the
  claims depend only on their role, not on the exact byte values.
-/

namespace Gkdbus

/-- KDBUS_ALIGN8 from gkdbus.c: round a length up to a multiple of 8
(`((l) + 7) & ~7`). -/
def KDBUS_ALIGN8 (l : Nat) : Nat := (l + 7) / 8 * 8

/-- Modelled from the spec: kdbus.h is not under src/. The minimal
item-header size, `offsetof(struct kdbus_item, data)`, covers the item's
64-bit size and type fields: 16 bytes. -/
def KDBUS_PART_HEADER_SIZE : Nat := 16

/-- KDBUS_ITEM_SIZE from gkdbus.c: payload size plus item header,
8-byte aligned. -/
def KDBUS_ITEM_SIZE (s : Nat) : Nat := KDBUS_ALIGN8 (s + KDBUS_PART_HEADER_SIZE)

/-- RECEIVE_POOL_SIZE from gkdbus.c: 10 MiB. -/
def RECEIVE_POOL_SIZE : Nat := 10 * 1024 * 1024

/-- Modelled from the spec: kdbus.h is not under src/. `sizeof(struct
kdbus_msg)`: seven 64-bit header fields (size, flags, dst_id, src_id,
payload_type, cookie, cookie_reply) before the flexible item array. -/
def sizeof_kdbus_msg : Nat := 56

/-- Modelled from the spec: kdbus.h is not under src/. `sizeof(struct
kdbus_vec)`: a 64-bit offset/address and a 64-bit size. -/
def sizeof_kdbus_vec : Nat := 16

/-- ULLONG_MAX, the saturation value of strtoull. -/
def ULLONG_MAX : Nat := 2 ^ 64 - 1

/-- Modelled from the spec: kdbus.h is not under src/. The broadcast
destination sentinel `KDBUS_DST_ID_BROADCAST` is `~0ULL`. -/
def KDBUS_DST_ID_BROADCAST : Nat := ULLONG_MAX

/-- Modelled from the spec: kdbus.h is not under src/.
`KDBUS_DST_ID_WELL_KNOWN_NAME` is 0 (destination resolved by name). -/
def KDBUS_DST_ID_WELL_KNOWN_NAME : Nat := 0

/-- Modelled from the spec: kdbus.h is not under src/. The payload kind tag
`KDBUS_PAYLOAD_DBUS1`; its exact numeric value is immaterial here. -/
def KDBUS_PAYLOAD_DBUS1 : Nat := 1

/-- Conversion of a kernel 64-bit value to the `gint` field that
`GKdbusPrivate` stores `hello.id` into (C truncating conversion,
two's complement). -/
def gint_of_u64 (n : Nat) : Int :=
  if n % 2 ^ 32 < 2 ^ 31 then ((n % 2 ^ 32 : Nat) : Int)
  else ((n % 2 ^ 32 : Nat) : Int) - 2 ^ 32

/-- Conversion of the `gint` peer id to the 64-bit `src_id` field of the
command buffer (C conversion to an unsigned 64-bit integer). -/
def u64_of_gint (i : Int) : Nat := (i % (2 ^ 64 : Int)).toNat

/-- The endpoint state `struct _GKdbusPrivate` of gkdbus.c. The mapped
receive pool pointer `buffer_ptr` is modelled by the flag `pool_mapped`;
the pool's bytes themselves are an input of `g_kdbus_receive`. -/
structure GKdbus where
  fd : Int
  peer_id : Int
  bloom_size : Nat
  registered : Bool
  closed : Bool
  pool_mapped : Bool
  sender : Option String
  timeout : Nat
  timed_out : Bool
deriving DecidableEq

/-- g_kdbus_close from gkdbus.c: closes the descriptor, sets
`closed = TRUE`, `fd = -1`, `registered = FALSE`, and returns TRUE
unconditionally (the return of the close(2) call on the descriptor is
ignored, so a second call also returns TRUE). -/
def g_kdbus_close (k : GKdbus) : GKdbus × Bool :=
  ({ k with closed := true, fd := -1, registered := false }, true)

/-- g_kdbus_is_closed from gkdbus.c. -/
def g_kdbus_is_closed (k : GKdbus) : Bool := k.closed

/-- The item type tags the decoder switches on; the closed set from
kdbus.h (not under src/), with all other kernel-defined tags collapsed
into `other`, which the decoder skips. -/
inductive kdbus_recv_item_type
  | PAYLOAD_OFF
  | REPLY_TIMEOUT
  | REPLY_DEAD
  | other (raw : Nat)
deriving DecidableEq

/-- An item of an inbound message: its self-declared byte size, type tag,
and the payload-vector fields (`item->vec.offset`, `item->vec.size`),
which are only meaningful for `PAYLOAD_OFF` items (a union in C). -/
structure kdbus_recv_item where
  size : Nat
  type : kdbus_recv_item_type
  vec_offset : Nat
  vec_size : Nat
deriving DecidableEq

/-- The inbound `struct kdbus_msg` view: declared total size, reply
cookie, and the item chain laid out after the fixed header. -/
structure kdbus_msg where
  size : Nat
  cookie_reply : Nat
  items : List kdbus_recv_item
deriving DecidableEq

/-- Observable reports emitted by the decoder: the `g_error` "invalid data
record" abort on a short item, and the unconditional `g_print` console log
in the `KDBUS_MSG_REPLY_DEAD` case (a log only — nothing is returned to
the caller for such an item; the error-message synthesis in the source is
commented out). -/
inductive DecodeReport
  | invalid_record (size : Nat)
  | reply_dead_logged (cookie : Nat)
deriving DecidableEq

/-- The caller-observable outcome of g_kdbus_decode_msg: the bytes
memcpy'd into the caller's `data` buffer in order, the returned
`ret_size`, and the reports emitted on the way. -/
structure DecodeResult where
  written : List Nat
  ret_size : Nat
  reports : List DecodeReport
deriving DecidableEq

/-- The `memcpy(data, buffer_ptr + item->vec.offset, item->vec.size)` of
the decoder: read `sz` pool bytes starting at `off`. -/
def pool_read (pool : Nat → Nat) (off sz : Nat) : List Nat :=
  (List.range sz).map fun i => pool (off + i)

/-- The KDBUS_PART_FOREACH item walk of g_kdbus_decode_msg. `cursor` is
the byte offset of the current item from the start of the message; the
loop runs while `cursor < msg_size` and steps by the item's 8-byte-aligned
declared size. An item whose size is at most the item-header size aborts
the walk with an "invalid data record" report; `PAYLOAD_OFF` items copy
their vector from the pool; `REPLY_DEAD` items only log the reply cookie;
`REPLY_TIMEOUT` and unknown items are skipped. -/
def g_kdbus_decode_items (pool : Nat → Nat) (cookie_reply msg_size : Nat) :
    List kdbus_recv_item → Nat → DecodeResult
  | [], _ => ⟨[], 0, []⟩
  | item :: rest, cursor =>
    if msg_size ≤ cursor then ⟨[], 0, []⟩
    else if item.size ≤ KDBUS_PART_HEADER_SIZE then ⟨[], 0, [.invalid_record item.size]⟩
    else
      match item.type with
      | .PAYLOAD_OFF =>
        let bytes := pool_read pool item.vec_offset item.vec_size
        let r := g_kdbus_decode_items pool cookie_reply msg_size rest
                   (cursor + KDBUS_ALIGN8 item.size)
        ⟨bytes ++ r.written, item.vec_size + r.ret_size, r.reports⟩
      | .REPLY_DEAD =>
        let r := g_kdbus_decode_items pool cookie_reply msg_size rest
                   (cursor + KDBUS_ALIGN8 item.size)
        ⟨r.written, r.ret_size, .reply_dead_logged cookie_reply :: r.reports⟩
      | _ =>
        g_kdbus_decode_items pool cookie_reply msg_size rest
          (cursor + KDBUS_ALIGN8 item.size)

/-- g_kdbus_decode_msg from gkdbus.c: walk the item chain, which starts
right after the fixed `struct kdbus_msg` header. -/
def g_kdbus_decode_msg (pool : Nat → Nat) (msg : kdbus_msg) : DecodeResult :=
  g_kdbus_decode_items pool msg.cookie_reply msg.size msg.items sizeof_kdbus_msg

/-- Error codes distinguished by the receive/send ioctl loops. -/
inductive IoctlErr
  | EINTR
  | EAGAIN
  | other (errno : Nat)
deriving DecidableEq

/-- Result of one ioctl attempt; `ok` carries the out-value (the pool
offset for `MSG_RECV`, unused for the other commands). -/
inductive IoctlRes
  | ok (val : Nat)
  | err (e : IoctlErr)
deriving DecidableEq

/-- The `again:` retry loop around an ioctl: consume `EINTR` results and
return the total number of attempts together with the first non-EINTR
result; `none` if the oracle list runs out first. -/
def eat_eintr : List IoctlRes → Option (Nat × IoctlRes)
  | [] => none
  | .err .EINTR :: rest => (eat_eintr rest).map fun p => (p.1 + 1, p.2)
  | r :: _ => some (1, r)

/-- Kernel-side inputs of one g_kdbus_receive call: the successive results
of the `MSG_RECV` attempts, the successive results of the `MSG_RELEASE`
attempts, the message found in the pool at a given offset, and the bytes
of the mapped pool. -/
structure ReceiveEnv where
  recv_results : List IoctlRes
  release_results : List IoctlRes
  msg_at : Nat → kdbus_msg
  pool : Nat → Nat

/-- The caller-observable outcome of g_kdbus_receive: the gssize return
value, the bytes written into the caller's buffer, how many `MSG_RECV`
and `MSG_RELEASE` ioctls were issued and with which offset, the decoder's
reports, the `g_error` errno report of a failed receive, and whether the
release-failure `g_print` log fired. -/
structure ReceiveResult where
  ret : Int
  written : List Nat
  recv_calls : Nat
  release_calls : Nat
  release_offset : Option Nat
  reports : List DecodeReport
  recv_fail : Option Nat
  release_fail : Bool
deriving DecidableEq

/-- g_kdbus_receive from gkdbus.c. A closed endpoint returns 1 at once
(the "temporary hack" early return) with no kernel call. `MSG_RECV` is
retried on EINTR; EAGAIN returns 1; any other failure reports the errno
(`g_error`) and returns 1. On success the message at the returned offset
is decoded, then `MSG_RELEASE` with the same offset is retried on EINTR;
a release failure logs and returns -1, otherwise the decoder's byte count
is returned. `none` stands for an oracle list exhausted while the retry
loop would keep calling. -/
def g_kdbus_receive (ep : GKdbus) (env : ReceiveEnv) : Option ReceiveResult :=
  if ep.closed then some ⟨1, [], 0, 0, none, [], none, false⟩
  else
    match eat_eintr env.recv_results with
    | none => none
    | some (_, .err .EINTR) => none
    | some (n, .err .EAGAIN) => some ⟨1, [], n, 0, none, [], none, false⟩
    | some (n, .err (.other e)) => some ⟨1, [], n, 0, none, [], some e, false⟩
    | some (n, .ok off) =>
      let d := g_kdbus_decode_msg env.pool (env.msg_at off)
      match eat_eintr env.release_results with
      | none => none
      | some (_, .err .EINTR) => none
      | some (m, .ok _) =>
        some ⟨(d.ret_size : Int), d.written, n, m, some off, d.reports, none, false⟩
      | some (m, .err _) =>
        some ⟨-1, d.written, n, m, some off, d.reports, none, true⟩

/-- `strlen` on the transport's destination strings (byte length). -/
def strlen (s : String) : Nat := s.utf8ByteSize

/-- The unique-name test of g_kdbus_send_message:
`name[0]==':' && name[1]=='1' && name[2]=='.'`. -/
def is_unique_name_form : List Char → Bool
  | ':' :: '1' :: '.' :: _ => true
  | _ => false

/-- Value of a leading run of decimal digits, accumulator style, as
strtoull scans it. -/
def digits_value : List Char → Nat → Nat
  | [], acc => acc
  | c :: cs, acc =>
    if c.isDigit then digits_value cs (acc * 10 + (c.toNat - 48)) else acc

/-- `strtoull(s, NULL, 10)` on the characters after the ":1." prefix:
the value of the leading digit run, saturated at ULLONG_MAX (strtoull
returns ULLONG_MAX on overflow). -/
def strtoull10 (cs : List Char) : Nat := min (digits_value cs 0) ULLONG_MAX

/-- The destination-resolution step of g_kdbus_send_message (lines
810-818): no destination means broadcast; a ":1."-prefixed name is parsed
to a numeric id and the name dropped; any other name is kept with the
well-known-name destination id. -/
def parse_destination (dest : Option String) : Option String × Nat :=
  match dest with
  | none => (none, KDBUS_DST_ID_BROADCAST)
  | some n =>
    if is_unique_name_form n.data then (none, strtoull10 (n.data.drop 3))
    else (some n, KDBUS_DST_ID_WELL_KNOWN_NAME)

/-- Items of the outbound command buffer. The payload-vector item stores
the caller's blob (address, length) without copying; the name item stores
the destination name; the bloom item has `bloom_size` fill bytes (their
content, an strncpy of the message interface, carries no weight in the
claims and is not modelled). -/
inductive kdbus_send_item
  | vec (address : Nat) (size : Nat)
  | dst_name (name : String)
  | bloom (bloom_size : Nat)
deriving DecidableEq

/-- The `item->size` field each branch of g_kdbus_send_message stores:
header plus vector struct for the payload item, header plus name plus NUL
for the name item, header plus bloom size for the bloom item. -/
def kdbus_item_size : kdbus_send_item → Nat
  | .vec _ _ => KDBUS_PART_HEADER_SIZE + sizeof_kdbus_vec
  | .dst_name n => KDBUS_PART_HEADER_SIZE + strlen n + 1
  | .bloom b => KDBUS_PART_HEADER_SIZE + b

/-- The outbound `struct kdbus_msg` command buffer as populated by
g_kdbus_send_message. -/
structure kdbus_cmd_msg where
  size : Nat
  payload_type : Nat
  dst_id : Nat
  src_id : Nat
  cookie : Nat
  items : List kdbus_send_item
deriving DecidableEq

/-- The command-buffer construction of g_kdbus_send_message (lines
810-867): resolve the destination, size the buffer as fixed header plus
one aligned payload-vector item plus — depending on the addressing mode —
an aligned name item, an unaligned `header + bloom_size` bloom item, or
nothing, and populate the corresponding items. `kmsg->dst_id` is 0 when a
name item is attached, else the resolved numeric destination. -/
def build_kmsg (dest : Option String) (peer_id : Int)
    (serial blob_addr blob_size bloom_size : Nat) : kdbus_cmd_msg :=
  let p := parse_destination dest
  let base := sizeof_kdbus_msg + KDBUS_ITEM_SIZE sizeof_kdbus_vec
  match p with
  | (some n, _) =>
    { size := base + KDBUS_ITEM_SIZE (strlen n + 1)
      payload_type := KDBUS_PAYLOAD_DBUS1
      dst_id := 0
      src_id := u64_of_gint peer_id
      cookie := serial
      items := [.vec blob_addr blob_size, .dst_name n] }
  | (none, dst) =>
    if dst = KDBUS_DST_ID_BROADCAST then
      { size := base + KDBUS_PART_HEADER_SIZE + bloom_size
        payload_type := KDBUS_PAYLOAD_DBUS1
        dst_id := dst
        src_id := u64_of_gint peer_id
        cookie := serial
        items := [.vec blob_addr blob_size, .bloom bloom_size] }
    else
      { size := base
        payload_type := KDBUS_PAYLOAD_DBUS1
        dst_id := dst
        src_id := u64_of_gint peer_id
        cookie := serial
        items := [.vec blob_addr blob_size] }

/-- The fields of a GDBusMessage that g_kdbus_send_message reads. -/
structure GDBusMessage where
  member : Option String
  destination : Option String
  iface : Option String
  serial : Nat
deriving DecidableEq

/-- Kernel response to the `HELLO` registration ioctl: failure, or success
delivering the peer id and bloom size, with `map_ok` telling whether the
subsequent mmap of the receive pool succeeds. -/
inductive HelloOutcome
  | fail
  | ok (id : Nat) (bloom : Nat) (map_ok : Bool)
deriving DecidableEq

/-- g_kdbus_register from gkdbus.c: on ioctl failure report and return
FALSE with no state change; on success set `registered`, store the peer id
(into a `gint` field) and bloom size, then mmap the pool — if the mapping
fails the function returns FALSE but `registered` stays TRUE (the source's
known rollback quirk). -/
def g_kdbus_register (ep : GKdbus) (h : HelloOutcome) : GKdbus × Bool :=
  match h with
  | .fail => (ep, false)
  | .ok id bloom map_ok =>
    ({ ep with
        registered := true,
        peer_id := gint_of_u64 id,
        bloom_size := bloom,
        pool_mapped := map_ok }, map_ok)

/-- A message delivered locally to the GDBusWorker by g_kdbus_send_reply:
its sender header field and its single-string body. -/
structure HelloReply where
  sender : String
  body : String
deriving DecidableEq

/-- g_kdbus_send_reply from gkdbus.c: build a local method reply whose
sender is "org.freedesktop.DBus" and whose body is the unique name
":1.<peer_id>" (sprintf of the stored gint peer id), remember that string
in `priv->sender`, and hand the reply to the worker. -/
def g_kdbus_send_reply (ep : GKdbus) : GKdbus × HelloReply :=
  let unique_name := toString ep.peer_id
  let s := ":1." ++ unique_name
  ({ ep with sender := some s }, ⟨"org.freedesktop.DBus", s⟩)

/-- Reports of g_kdbus_send_message: the `g_error` after a failed
registration, and the `g_error` after a failed `MSG_SEND` ioctl. -/
inductive SendReport
  | register_failed
  | send_failed (e : IoctlErr)
deriving DecidableEq

/-- Kernel-side inputs of one g_kdbus_send_message call. -/
structure SendEnv where
  hello : HelloOutcome
  send_results : List IoctlRes
deriving DecidableEq

/-- The caller-observable outcome of g_kdbus_send_message: the gssize
return value, the endpoint state afterwards, the locally synthesized
replies delivered to the worker, the command buffer built (none when no
`MSG_SEND` path was reached), the number of `MSG_SEND` ioctls issued, and
the reports emitted. -/
structure SendResult where
  ret : Int
  ep : GKdbus
  queued : List HelloReply
  kmsg : Option kdbus_cmd_msg
  send_calls : Nat
  reports : List SendReport
deriving DecidableEq

/-- The build-and-send tail of g_kdbus_send_message (lines 820-885):
build the command buffer, issue `MSG_SEND` retrying on EINTR, report any
other failure, and return `blob_size` in every completed path. -/
def send_kmsg_part (ep : GKdbus) (env : SendEnv) (msg : GDBusMessage)
    (blob_addr blob_size : Nat) : Option SendResult :=
  let k := build_kmsg msg.destination ep.peer_id msg.serial blob_addr blob_size
             ep.bloom_size
  match eat_eintr env.send_results with
  | none => none
  | some (_, .err .EINTR) => none
  | some (n, .ok _) => some ⟨(blob_size : Int), ep, [], some k, n, []⟩
  | some (n, .err e) => some ⟨(blob_size : Int), ep, [], some k, n, [.send_failed e]⟩

/-- g_kdbus_send_message from gkdbus.c. On a not-yet-registered endpoint it
first registers (failure: report and return -1); if the message member is
exactly "Hello" it then synthesizes the local reply via g_kdbus_send_reply,
skips the kernel send entirely (`goto out`) and returns `blob_size`.
Otherwise the command buffer is built and sent. -/
def g_kdbus_send_message (ep : GKdbus) (env : SendEnv) (msg : GDBusMessage)
    (blob_addr blob_size : Nat) : Option SendResult :=
  if ep.registered then send_kmsg_part ep env msg blob_addr blob_size
  else
    let r := g_kdbus_register ep env.hello
    if r.2 = false then some ⟨-1, r.1, [], none, 0, [.register_failed]⟩
    else if msg.member = some "Hello" then
      let q := g_kdbus_send_reply r.1
      some ⟨(blob_size : Int), q.1, [q.2], none, 0, []⟩
    else send_kmsg_part r.1 env msg blob_addr blob_size

/-! Concrete instances used by counterexamples and witnesses. -/

/-- A concrete receive pool: byte `i` holds `(i + 10) % 256`. -/
def pool1 : Nat → Nat := fun i => (i + 10) % 256

/-- A message with one payload-offset-vector item of 2 bytes at pool
offset 0 (declared size 56 + 32). -/
def msg_payload2 : kdbus_msg := ⟨88, 0, [⟨32, .PAYLOAD_OFF, 0, 2⟩]⟩

/-- A message with one payload-offset-vector item of 1 byte at pool
offset 5. -/
def msg_payload1 : kdbus_msg := ⟨88, 0, [⟨32, .PAYLOAD_OFF, 5, 1⟩]⟩

/-- A message with one payload-offset-vector item of 3 bytes at pool
offset 0. -/
def msg_payload3 : kdbus_msg := ⟨88, 0, [⟨32, .PAYLOAD_OFF, 0, 3⟩]⟩

/-- A message carrying a single reply-peer-dead notice item with reply
cookie 99. -/
def msg_reply_dead : kdbus_msg := ⟨80, 99, [⟨24, .REPLY_DEAD, 0, 0⟩]⟩

/-- A registered, open endpoint. -/
def ep_open : GKdbus := ⟨3, 7, 64, true, false, true, none, 0, false⟩

/-- A closed endpoint. -/
def ep_closed : GKdbus := ⟨-1, 7, 64, false, true, true, none, 0, false⟩

/-- A freshly opened, not yet registered endpoint. -/
def ep_init : GKdbus := ⟨3, -1, 0, false, false, false, none, 0, false⟩

/-- A Hello method-call message. -/
def msg_hello : GDBusMessage := ⟨some "Hello", none, none, 1⟩

/-- Kernel oracle: the RECV ioctl fails with EAGAIN. -/
def env_eagain : ReceiveEnv := ⟨[.err .EAGAIN], [], fun _ => msg_payload1, pool1⟩

/-- Kernel oracle: the RECV ioctl fails with EINTR once, then EAGAIN. -/
def env_eintr_eagain : ReceiveEnv :=
  ⟨[.err .EINTR, .err .EAGAIN], [], fun _ => msg_payload1, pool1⟩

/-- Kernel oracle: the RECV ioctl fails with errno 5. -/
def env_errno5 : ReceiveEnv := ⟨[.err (.other 5)], [], fun _ => msg_payload1, pool1⟩

/-- Kernel oracle: RECV yields offset 0 (a 1-byte payload message there)
and RELEASE succeeds. -/
def env_one_byte : ReceiveEnv := ⟨[.ok 0], [.ok 0], fun _ => msg_payload1, pool1⟩

/-- Kernel oracle: RECV yields offset 8 (a 3-byte payload message there)
and RELEASE fails with errno 9. -/
def env_rel_fail : ReceiveEnv :=
  ⟨[.ok 8], [.err (.other 9)], fun _ => msg_payload3, pool1⟩

/-! Helper lemmas. -/

/-- Aligning a multiple of 8 is the identity. -/
lemma align8_eq_of_dvd {x : Nat} (h : 8 ∣ x) : KDBUS_ALIGN8 x = x := by
  obtain ⟨c, rfl⟩ := h
  show (8 * c + 7) / 8 * 8 = 8 * c
  rw [Nat.mul_add_div (by norm_num)]
  norm_num [Nat.mul_comm]

/-- The sum over a prefix of a mapped list is at most the full mapped sum. -/
lemma sum_take_le {α : Type} (f : α → Nat) (l : List α) (n : Nat) :
    ((l.take n).map f).sum ≤ (l.map f).sum := by
  conv_rhs => rw [← List.take_append_drop n l]
  rw [List.map_append, List.sum_append]
  exact Nat.le_add_right _ _

/-- The decoder writes exactly as many bytes into the caller's buffer as
the byte count it returns. -/
lemma decode_items_written_eq (pool : Nat → Nat) (cr sz : Nat) :
    ∀ (items : List kdbus_recv_item) (cur : Nat),
      (g_kdbus_decode_items pool cr sz items cur).written.length =
        (g_kdbus_decode_items pool cr sz items cur).ret_size := by
  intro items
  induction items with
  | nil => intro cur; simp [g_kdbus_decode_items]
  | cons item rest ih =>
    intro cur
    by_cases h1 : sz ≤ cur
    · simp [g_kdbus_decode_items, h1]
    · by_cases h2 : item.size ≤ KDBUS_PART_HEADER_SIZE
      · simp [g_kdbus_decode_items, h1, h2]
      · cases ht : item.type with
        | PAYLOAD_OFF => simp [g_kdbus_decode_items, h1, h2, ht, pool_read, ih]
        | REPLY_TIMEOUT => simp [g_kdbus_decode_items, h1, h2, ht, ih]
        | REPLY_DEAD => simp [g_kdbus_decode_items, h1, h2, ht, ih]
        | other raw => simp [g_kdbus_decode_items, h1, h2, ht, ih]

/-- Case shape of the command buffer built by g_kdbus_send_message: a name
item for a named destination, a bloom item for a broadcast destination,
and no second item for a numeric unique-id destination — with the
corresponding declared total size in each case. -/
lemma build_kmsg_characterization (dest : Option String) (peer : Int)
    (serial addr bsz bloom : Nat) :
    (∃ n, (build_kmsg dest peer serial addr bsz bloom).items
        = [.vec addr bsz, .dst_name n]
      ∧ (build_kmsg dest peer serial addr bsz bloom).size
        = sizeof_kdbus_msg + KDBUS_ITEM_SIZE sizeof_kdbus_vec
            + KDBUS_ITEM_SIZE (strlen n + 1))
    ∨ ((build_kmsg dest peer serial addr bsz bloom).items
        = [.vec addr bsz, .bloom bloom]
      ∧ (build_kmsg dest peer serial addr bsz bloom).size
        = sizeof_kdbus_msg + KDBUS_ITEM_SIZE sizeof_kdbus_vec
            + KDBUS_PART_HEADER_SIZE + bloom)
    ∨ ((build_kmsg dest peer serial addr bsz bloom).items = [.vec addr bsz]
      ∧ (build_kmsg dest peer serial addr bsz bloom).size
        = sizeof_kdbus_msg + KDBUS_ITEM_SIZE sizeof_kdbus_vec) := by
  cases hp : parse_destination dest with
  | mk nm dst =>
    cases nm with
    | some n =>
      exact Or.inl ⟨n, by simp [build_kmsg, hp], by simp [build_kmsg, hp]⟩
    | none =>
      by_cases hd : dst = KDBUS_DST_ID_BROADCAST
      · exact Or.inr (Or.inl
          ⟨by simp [build_kmsg, hp, hd], by simp [build_kmsg, hp, hd]⟩)
      · exact Or.inr (Or.inr
          ⟨by simp [build_kmsg, hp, hd], by simp [build_kmsg, hp, hd]⟩)

/-! Claim theorems. -/

/-- C1, counterexample. The claim "decode never writes past the output
buffer's stated capacity: either the copied payload fits the capacity or
decode reports BufferTooSmall" fails on the code: decoding a message with
one 2-byte payload-offset-vector item copies 2 bytes into the caller's
buffer unconditionally and emits no report whatsoever (the decoder has no
capacity parameter and no BufferTooSmall error), so a caller buffer of
capacity 1 is overrun. -/
theorem decode_unchecked_copy_cex :
    (g_kdbus_decode_msg pool1 msg_payload2).written.length = 2
    ∧ (g_kdbus_decode_msg pool1 msg_payload2).reports = []
    ∧ ¬((g_kdbus_decode_msg pool1 msg_payload2).written.length ≤ 1) := by
  decide

/-- C1, amended. The decoder copies payload bytes unchecked: it writes into
the caller's buffer exactly the byte count it returns, so the writes stay
within the caller's capacity precisely when the caller supplies a buffer of
at least the returned total; the code itself performs no capacity check and
has no BufferTooSmall report. -/
theorem decode_written_eq_returned_count (pool : Nat → Nat) (msg : kdbus_msg)
    (cap : Nat) :
    (g_kdbus_decode_msg pool msg).written.length
      = (g_kdbus_decode_msg pool msg).ret_size
    ∧ ((g_kdbus_decode_msg pool msg).ret_size ≤ cap →
       (g_kdbus_decode_msg pool msg).written.length ≤ cap) := by
  have h := decode_items_written_eq pool msg.cookie_reply msg.size msg.items
    sizeof_kdbus_msg
  exact ⟨h, fun hc => h ▸ hc⟩

/-- C1, witness for the amended theorem at a concrete message and a
capacity of 5 bytes. -/
theorem decode_written_eq_returned_count_witness :
    (g_kdbus_decode_msg pool1 msg_payload2).written.length
      = (g_kdbus_decode_msg pool1 msg_payload2).ret_size
    ∧ (g_kdbus_decode_msg pool1 msg_payload2).written.length ≤ 5 :=
  ⟨(decode_written_eq_returned_count pool1 msg_payload2 5).1,
   (decode_written_eq_returned_count pool1 msg_payload2 5).2 (by decide)⟩

/-- C2. An item whose declared size is at most the minimal item-header
size (hence also one whose size equals it exactly) makes the decoder stop
at that item with the "invalid data record" report — the MalformedItem
condition — processing neither that item nor any later one; an item whose
declared size is one byte larger is accepted and processed as an ordinary
(possibly empty-payload) item, decoding then continuing with the rest of
the chain. -/
theorem decode_min_item_size_boundary :
    (∀ (pool : Nat → Nat) (cr sz : Nat) (item : kdbus_recv_item)
       (rest : List kdbus_recv_item) (cur : Nat),
       cur < sz → item.size ≤ KDBUS_PART_HEADER_SIZE →
       g_kdbus_decode_items pool cr sz (item :: rest) cur
         = ⟨[], 0, [.invalid_record item.size]⟩)
    ∧ (∀ (pool : Nat → Nat) (cr sz : Nat) (rest : List kdbus_recv_item)
       (cur off v : Nat), cur < sz →
       g_kdbus_decode_items pool cr sz
           (⟨KDBUS_PART_HEADER_SIZE + 1, .PAYLOAD_OFF, off, v⟩ :: rest) cur
         = (let r := g_kdbus_decode_items pool cr sz rest
              (cur + KDBUS_ALIGN8 (KDBUS_PART_HEADER_SIZE + 1))
            ⟨pool_read pool off v ++ r.written, v + r.ret_size, r.reports⟩)) := by
  constructor
  · intro pool cr sz item rest cur h1 h2
    simp [g_kdbus_decode_items, Nat.not_le.mpr h1, h2]
  · intro pool cr sz rest cur off v h1
    simp [g_kdbus_decode_items, Nat.not_le.mpr h1, KDBUS_PART_HEADER_SIZE]

/-- C2, witness: a 16-byte item (exactly the header size) is rejected as
malformed; a 17-byte payload item with an empty vector is accepted,
yielding an empty decode of the rest. -/
theorem decode_min_item_size_boundary_witness :
    g_kdbus_decode_items pool1 0 88 [⟨16, .PAYLOAD_OFF, 0, 4⟩] 56
      = ⟨[], 0, [.invalid_record 16]⟩
    ∧ g_kdbus_decode_items pool1 0 88 [⟨17, .PAYLOAD_OFF, 3, 0⟩] 56
      = ⟨[], 0, []⟩ := by
  constructor
  · exact decode_min_item_size_boundary.1 pool1 0 88 ⟨16, .PAYLOAD_OFF, 0, 4⟩ []
      56 (by decide) (by decide)
  · exact (decode_min_item_size_boundary.2 pool1 0 88 [] 56 3 0
      (by decide)).trans (by decide)

/-- C3 (code bug). EINTR on the RECV ioctl is retried and never surfaced
(first conjunct: one EINTR then EAGAIN means two RECV attempts), and any
non-EINTR/EAGAIN failure is reported with its errno (third conjunct), but
EAGAIN produces no distinct WouldBlock result: it returns 1 with no report
(second conjunct), the same value 1 the code returns for a receive on a
closed endpoint (fourth conjunct) and for a successfully decoded 1-byte
payload (fifth conjunct) — the three outcomes the claim requires to be
distinguishable collide on the return value. -/
theorem receive_eagain_return_collision :
    g_kdbus_receive ep_open env_eintr_eagain
      = some ⟨1, [], 2, 0, none, [], none, false⟩
    ∧ g_kdbus_receive ep_open env_eagain
      = some ⟨1, [], 1, 0, none, [], none, false⟩
    ∧ g_kdbus_receive ep_open env_errno5
      = some ⟨1, [], 1, 0, none, [], some 5, false⟩
    ∧ g_kdbus_receive ep_closed env_eagain
      = some ⟨1, [], 0, 0, none, [], none, false⟩
    ∧ g_kdbus_receive ep_open env_one_byte
      = some ⟨1, [15], 1, 1, some 0, [], none, false⟩ := by
  refine ⟨by decide, by decide, by decide, by decide, by decide⟩

/-- C4, counterexample. The claim "a failure of the RELEASE call does not
change the decode result already obtained (the caller still receives the
decoded byte count)" fails on the code: after a successful RECV at offset
8 and a decode yielding 3 bytes, a failing RELEASE makes g_kdbus_receive
return -1 instead of 3 (the 3 bytes are in the caller's buffer, but the
count is discarded). -/
theorem receive_release_failure_cex :
    g_kdbus_receive ep_open env_rel_fail
      = some ⟨-1, [10, 11, 12], 1, 1, some 8, [], none, true⟩
    ∧ (g_kdbus_decode_msg pool1 msg_payload3).ret_size = 3
    ∧ ((-1 : Int) ≠ (3 : Int)) := by
  decide

/-- C4, amended. After a successful RECV, a RELEASE with the same offset
is issued exactly once after decoding, regardless of the decode outcome;
the bytes already copied into the caller's buffer are unaffected by a
release failure, but a release failure changes the return value to -1
instead of the decoded byte count. -/
theorem receive_release_once_invariant (ep : GKdbus) (ma : Nat → kdbus_msg)
    (pool : Nat → Nat) (o e : Nat) (h : ep.closed = false) :
    g_kdbus_receive ep ⟨[.ok o], [.ok 0], ma, pool⟩
      = some ⟨((g_kdbus_decode_msg pool (ma o)).ret_size : Int),
              (g_kdbus_decode_msg pool (ma o)).written, 1, 1, some o,
              (g_kdbus_decode_msg pool (ma o)).reports, none, false⟩
    ∧ g_kdbus_receive ep ⟨[.ok o], [.err (.other e)], ma, pool⟩
      = some ⟨-1, (g_kdbus_decode_msg pool (ma o)).written, 1, 1, some o,
              (g_kdbus_decode_msg pool (ma o)).reports, none, true⟩ := by
  constructor <;> simp [g_kdbus_receive, eat_eintr, h]

/-- C4, witness for the amended theorem at a concrete open endpoint,
offset 8 and release errno 9. -/
theorem receive_release_once_invariant_witness :
    g_kdbus_receive ep_open ⟨[.ok 8], [.ok 0], fun _ => msg_payload3, pool1⟩
      = some ⟨((g_kdbus_decode_msg pool1 msg_payload3).ret_size : Int),
              (g_kdbus_decode_msg pool1 msg_payload3).written, 1, 1, some 8,
              (g_kdbus_decode_msg pool1 msg_payload3).reports, none, false⟩
    ∧ g_kdbus_receive ep_open
        ⟨[.ok 8], [.err (.other 9)], fun _ => msg_payload3, pool1⟩
      = some ⟨-1, (g_kdbus_decode_msg pool1 msg_payload3).written, 1, 1, some 8,
              (g_kdbus_decode_msg pool1 msg_payload3).reports, none, true⟩ :=
  receive_release_once_invariant ep_open (fun _ => msg_payload3) pool1 8 9 rfl

/-- C5, counterexample. The claim requires the buffer to hold "one
payload-vector item plus exactly one addressing item", but for the
unique-name destination ":1.7" the code attaches no addressing item at
all: the buffer holds the payload-vector item only. -/
theorem send_unique_dest_item_count_cex :
    (build_kmsg (some ":1.7") 1 7 100 10 64).items = [.vec 100 10]
    ∧ (build_kmsg (some ":1.7") 1 7 100 10 64).items.length ≠ 2 := by
  decide

/-- C5, amended. For every encode input whose bloom size is a multiple of
8 (the spec's own 8-byte-aligned item sizes make this the valid-input
condition for the broadcast case), the buffer's declared total size equals
the fixed header plus each item's 8-byte-aligned size, the items are one
payload-vector item plus at most one addressing item (exactly one for
named or broadcast destinations, none for a numeric unique-id
destination), and walking the items by aligned size never oversteps and
reaches exactly the declared total. -/
theorem send_buffer_size_item_walk (dest : Option String) (peer : Int)
    (serial addr bsz bloom : Nat) (hb : 8 ∣ bloom) :
    (build_kmsg dest peer serial addr bsz bloom).size
      = sizeof_kdbus_msg +
        ((build_kmsg dest peer serial addr bsz bloom).items.map
          (fun i => KDBUS_ALIGN8 (kdbus_item_size i))).sum
    ∧ (∃ tail, (build_kmsg dest peer serial addr bsz bloom).items
        = .vec addr bsz :: tail ∧ tail.length ≤ 1)
    ∧ ∀ n, sizeof_kdbus_msg +
        (((build_kmsg dest peer serial addr bsz bloom).items.take n).map
          (fun i => KDBUS_ALIGN8 (kdbus_item_size i))).sum
        ≤ (build_kmsg dest peer serial addr bsz bloom).size := by
  have hbl : KDBUS_ALIGN8 (KDBUS_PART_HEADER_SIZE + bloom)
      = KDBUS_PART_HEADER_SIZE + bloom := by
    apply align8_eq_of_dvd
    exact Nat.dvd_add (by norm_num [KDBUS_PART_HEADER_SIZE]) hb
  rcases build_kmsg_characterization dest peer serial addr bsz bloom with
    ⟨n, hi, hs⟩ | ⟨hi, hs⟩ | ⟨hi, hs⟩
  · have hsize : (build_kmsg dest peer serial addr bsz bloom).size
        = sizeof_kdbus_msg +
          ((build_kmsg dest peer serial addr bsz bloom).items.map
            (fun i => KDBUS_ALIGN8 (kdbus_item_size i))).sum := by
      rw [hs, hi]
      simp [kdbus_item_size, KDBUS_ITEM_SIZE, KDBUS_ALIGN8,
        sizeof_kdbus_vec, KDBUS_PART_HEADER_SIZE, sizeof_kdbus_msg]
      ring_nf
    exact ⟨hsize, ⟨[.dst_name n], hi, by simp⟩,
      fun m => by rw [hsize]; exact Nat.add_le_add_left (sum_take_le _ _ _) _⟩
  · have hsize : (build_kmsg dest peer serial addr bsz bloom).size
        = sizeof_kdbus_msg +
          ((build_kmsg dest peer serial addr bsz bloom).items.map
            (fun i => KDBUS_ALIGN8 (kdbus_item_size i))).sum := by
      rw [hs, hi]
      simp [kdbus_item_size, hbl]
      norm_num [KDBUS_ITEM_SIZE, KDBUS_ALIGN8, sizeof_kdbus_vec,
        KDBUS_PART_HEADER_SIZE, sizeof_kdbus_msg]
      omega
    exact ⟨hsize, ⟨[.bloom bloom], hi, by simp⟩,
      fun m => by rw [hsize]; exact Nat.add_le_add_left (sum_take_le _ _ _) _⟩
  · have hsize : (build_kmsg dest peer serial addr bsz bloom).size
        = sizeof_kdbus_msg +
          ((build_kmsg dest peer serial addr bsz bloom).items.map
            (fun i => KDBUS_ALIGN8 (kdbus_item_size i))).sum := by
      rw [hs, hi]
      norm_num [kdbus_item_size, KDBUS_ITEM_SIZE, KDBUS_ALIGN8,
        sizeof_kdbus_vec, KDBUS_PART_HEADER_SIZE, sizeof_kdbus_msg]
    exact ⟨hsize, ⟨[], hi, by simp⟩,
      fun m => by rw [hsize]; exact Nat.add_le_add_left (sum_take_le _ _ _) _⟩

/-- C5, witness for the amended theorem: a broadcast send (no destination)
with bloom size 64. -/
theorem send_buffer_size_item_walk_witness :
    (build_kmsg none 1 2 3 4 64).size
      = sizeof_kdbus_msg + ((build_kmsg none 1 2 3 4 64).items.map
          (fun i => KDBUS_ALIGN8 (kdbus_item_size i))).sum
    ∧ (∃ tail, (build_kmsg none 1 2 3 4 64).items
        = .vec 3 4 :: tail ∧ tail.length ≤ 1)
    ∧ ∀ n, sizeof_kdbus_msg +
        (((build_kmsg none 1 2 3 4 64).items.take n).map
          (fun i => KDBUS_ALIGN8 (kdbus_item_size i))).sum
        ≤ (build_kmsg none 1 2 3 4 64).size :=
  send_buffer_size_item_walk none 1 2 3 4 64 (by norm_num)

/-- C6, counterexample. The claim quantifies over every destination of the
form ":1." followed by digits, but for ":1.18446744073709551615" the
parsed value is the broadcast sentinel (2^64 - 1, the strtoull saturation
point), so the code addresses the message as a broadcast and attaches a
bloom item: the buffer is not header + payload-vector item only. -/
theorem send_unique_sentinel_cex :
    (build_kmsg (some ":1.18446744073709551615") 1 7 0 10 64).dst_id
      = KDBUS_DST_ID_BROADCAST
    ∧ (build_kmsg (some ":1.18446744073709551615") 1 7 0 10 64).items
      = [.vec 0 10, .bloom 64]
    ∧ (build_kmsg (some ":1.18446744073709551615") 1 7 0 10 64).size
      ≠ sizeof_kdbus_msg + KDBUS_ITEM_SIZE sizeof_kdbus_vec := by
  decide

/-- C6, amended. For every destination ":1." followed by a non-empty run
of digits whose numeric value is below the broadcast sentinel 2^64 - 1,
the encoder addresses the message directly by the parsed numeric peer id,
attaches no destination-name item (the items are the payload-vector item
only), and the buffer size equals the fixed header plus the payload-vector
item only. -/
theorem send_unique_dest_direct (ds : List Char) (peer : Int)
    (serial addr bsz bloom : Nat) (_hne : ds ≠ [])
    (_hdig : ∀ c ∈ ds, c.isDigit = true)
    (hlt : digits_value ds 0 < KDBUS_DST_ID_BROADCAST) :
    (build_kmsg (some (String.mk (':' :: '1' :: '.' :: ds)))
        peer serial addr bsz bloom).dst_id = digits_value ds 0
    ∧ (build_kmsg (some (String.mk (':' :: '1' :: '.' :: ds)))
        peer serial addr bsz bloom).items = [.vec addr bsz]
    ∧ (build_kmsg (some (String.mk (':' :: '1' :: '.' :: ds)))
        peer serial addr bsz bloom).size
      = sizeof_kdbus_msg + KDBUS_ITEM_SIZE sizeof_kdbus_vec := by
  have hdata : (String.mk (':' :: '1' :: '.' :: ds)).data
      = ':' :: '1' :: '.' :: ds := rfl
  have hform : is_unique_name_form (':' :: '1' :: '.' :: ds) = true := rfl
  have hval : strtoull10 ds = digits_value ds 0 :=
    Nat.min_eq_left (Nat.le_of_lt hlt)
  have hparse : parse_destination (some (String.mk (':' :: '1' :: '.' :: ds)))
      = (none, digits_value ds 0) := by
    simp [parse_destination, hdata, hform, hval]
  have hne2 : digits_value ds 0 ≠ KDBUS_DST_ID_BROADCAST := Nat.ne_of_lt hlt
  refine ⟨?_, ?_, ?_⟩ <;> simp [build_kmsg, hparse, hne2]

/-- C6, witness for the amended theorem at destination ":1.7". -/
theorem send_unique_dest_direct_witness :
    (build_kmsg (some (String.mk [':', '1', '.', '7'])) 1 2 3 4 64).dst_id
      = digits_value ['7'] 0
    ∧ (build_kmsg (some (String.mk [':', '1', '.', '7'])) 1 2 3 4 64).items
      = [.vec 3 4]
    ∧ (build_kmsg (some (String.mk [':', '1', '.', '7'])) 1 2 3 4 64).size
      = sizeof_kdbus_msg + KDBUS_ITEM_SIZE sizeof_kdbus_vec :=
  send_unique_dest_direct ['7'] 1 2 3 4 64 (by decide) (by decide) (by decide)

/-- C7. Closing an endpoint twice yields, after the second call, exactly
the state reached after the first (closed, unregistered, descriptor -1),
and the second call also returns TRUE. -/
theorem close_idempotent (k : GKdbus) :
    g_kdbus_close (g_kdbus_close k).1 = g_kdbus_close k
    ∧ (g_kdbus_close (g_kdbus_close k).1).2 = true
    ∧ (g_kdbus_close k).1.closed = true
    ∧ (g_kdbus_close k).1.registered = false
    ∧ (g_kdbus_close k).1.fd = -1 :=
  ⟨rfl, rfl, rfl, rfl, rfl⟩

/-- C8 (code bug). Decoding a message whose only item is a
reply-peer-dead notice with reply cookie 99 writes zero payload bytes and
returns byte count 0, and its only observable effect is the console log of
the cookie: no PeerGone condition is reported to the caller (the local
error-message synthesis in the source is commented out as TODO), so the
result is indistinguishable from decoding an empty message apart from the
debug print. -/
theorem decode_reply_dead_log_only :
    g_kdbus_decode_msg pool1 msg_reply_dead
      = ⟨[], 0, [.reply_dead_logged 99]⟩ := by
  decide

/-- C9. A receive on a closed endpoint performs no RECV and no RELEASE
ioctl and returns 1 — the same return value 1 produced by the EAGAIN
(would-block) path and by a successful receive that decodes a 1-byte
payload, so the caller cannot tell these outcomes apart by the return
value. -/
theorem receive_closed_returns_one :
    (∀ (ep : GKdbus) (env : ReceiveEnv), ep.closed = true →
      g_kdbus_receive ep env = some ⟨1, [], 0, 0, none, [], none, false⟩)
    ∧ g_kdbus_receive ep_open env_eagain
      = some ⟨1, [], 1, 0, none, [], none, false⟩
    ∧ g_kdbus_receive ep_open env_one_byte
      = some ⟨1, [15], 1, 1, some 0, [], none, false⟩ := by
  refine ⟨fun ep env h => by simp [g_kdbus_receive, h], by decide, by decide⟩

/-- C9, witness at a concrete closed endpoint. -/
theorem receive_closed_returns_one_witness :
    g_kdbus_receive ep_closed env_one_byte
      = some ⟨1, [], 0, 0, none, [], none, false⟩ :=
  receive_closed_returns_one.1 ep_closed env_one_byte rfl

/-- C10. A send on a not-yet-registered endpoint whose member is exactly
"Hello", with the registration ioctl and pool mapping succeeding,
registers the endpoint, issues no MSG_SEND ioctl and builds no command
buffer, queues to the worker exactly one locally synthesized reply whose
sender is "org.freedesktop.DBus" and whose body is the unique name
":1.<peer_id>" (for the freshly stored peer id), and returns the full
payload size. -/
theorem send_hello_local_reply (ep : GKdbus) (id bloom : Nat)
    (srs : List IoctlRes) (msg : GDBusMessage) (addr bsz : Nat)
    (hreg : ep.registered = false) (hm : msg.member = some "Hello") :
    g_kdbus_send_message ep ⟨.ok id bloom true, srs⟩ msg addr bsz
      = some ⟨(bsz : Int),
              { ep with
                  registered := true,
                  peer_id := gint_of_u64 id,
                  bloom_size := bloom,
                  pool_mapped := true,
                  sender := some (":1." ++ toString (gint_of_u64 id)) },
              [⟨"org.freedesktop.DBus", ":1." ++ toString (gint_of_u64 id)⟩],
              none, 0, []⟩ := by
  simp [g_kdbus_send_message, g_kdbus_register, g_kdbus_send_reply, hreg, hm]

/-- C10, witness: a fresh endpoint, kernel-assigned peer id 42, a Hello
message with 5 payload bytes. -/
theorem send_hello_local_reply_witness :
    g_kdbus_send_message ep_init ⟨.ok 42 64 true, []⟩ msg_hello 0 5
      = some ⟨(5 : Int),
              { ep_init with
                  registered := true,
                  peer_id := gint_of_u64 42,
                  bloom_size := 64,
                  pool_mapped := true,
                  sender := some (":1." ++ toString (gint_of_u64 42)) },
              [⟨"org.freedesktop.DBus", ":1." ++ toString (gint_of_u64 42)⟩],
              none, 0, []⟩ :=
  send_hello_local_reply ep_init 42 64 [] msg_hello 0 5 rfl rfl

end Gkdbus
